import Mathlib

/-!
Verification of the IP-blocking lifecycle core (`src/ip_blocking.py`).

Shallow embedding conventions:
* Time is measured in whole seconds as `Nat` (the TTL `timedelta(hours=1)`
  becomes `3600`; `datetime.now()` becomes an explicit `now : Nat` argument).
* The behaviour of the external privileged process started by
  `subprocess.run` is an explicit `ProcBehavior` argument: how long the
  process takes, its exit code, its stderr, and whether the call raises a
  non-timeout exception (e.g. the binary being absent).
* The backing store file `data/blocklist.json` is a `StoreFile`: present
  with a parsed event list, absent, or present with content that is not
  valid JSON.
* The whole mutable world touched by the functions (store file plus the
  append-only `logs/actions.log`) is a `SysState`, threaded explicitly.
-/

/-- One entry of the persisted log: the Python dict with keys time, ip and
action built in `log_action`. -/
structure LogEntry where
  time : Nat
  ip : String
  action : String
deriving DecidableEq, Repr

/-- The backing file `data/blocklist.json`: missing, present but not valid
JSON, or present with a parsed list of entries. -/
inductive StoreFile where
  | missing : StoreFile
  | corrupt (raw : String) : StoreFile
  | ok (events : List LogEntry) : StoreFile
deriving DecidableEq, Repr

/-- The mutable world: the store file and the append-only actions log. -/
structure SysState where
  blocklist : StoreFile
  actionsLog : List LogEntry
deriving DecidableEq, Repr

/-- The firewall command path, `/sbin/iptables`. -/
def FIREWALL_CMD : String := "/sbin/iptables"

/-- Behaviour of one invocation of the external privileged command:
`duration` seconds of wall time, the process `exitCode` and `stderr` when it
completes, and `exn` the string of a non-timeout exception raised by
`subprocess.run` itself (e.g. `FileNotFoundError`), if any. -/
structure ProcBehavior where
  duration : Nat
  exitCode : Nat
  stderr : String
  exn : Option String
deriving DecidableEq, Repr

/-- Outcome of `subprocess.run(..., check=True, timeout=t)`. -/
inductive RunResult where
  | completed (exitCode : Nat) (stderr : String) : RunResult
  | timedOut (msg : String) : RunResult
  | raised (msg : String) : RunResult
deriving DecidableEq, Repr

/-- String form of `subprocess.TimeoutExpired` for a command and bound. -/
def timeoutStr (cmd : List String) (t : Nat) : String :=
  "Command " ++ toString cmd ++ " timed out after " ++ toString t ++ " seconds"

/-- Semantics of `subprocess.run(cmd, check=True, timeout=t)`: a pending
exception beats everything; a process running longer than `t` raises
`TimeoutExpired`; otherwise the process completes with its exit code. -/
def subprocessRun (cmd : List String) (t : Nat) (b : ProcBehavior) : RunResult :=
  match b.exn with
  | some m => .raised m
  | none =>
    if t < b.duration then .timedOut (timeoutStr cmd t)
    else .completed b.exitCode b.stderr

/-- The space-joined command words used in the command-failure message. -/
def joinSpace (cmd : List String) : String :=
  String.intercalate " " cmd

/-- Embeds `execute_firewall_command` (src/ip_blocking.py:34-51): runs
the command prefixed with sudo, with check set and a 10-second timeout;
returns `(true, "")` on
success, `(False, msg)` where a `CalledProcessError` yields a
"Command failed" message and any other exception (including
`TimeoutExpired`) yields an "Unexpected error" message. -/
def execute_firewall_command (cmd : List String) (b : ProcBehavior) : Bool × String :=
  match subprocessRun ("sudo" :: cmd) 10 b with
  | .completed 0 _ => (true, "")
  | .completed (_ + 1) stderr =>
      (false, "Command failed (" ++ joinSpace cmd ++ "): " ++ stderr)
  | .timedOut m => (false, "Unexpected error: " ++ m)
  | .raised m => (false, "Unexpected error: " ++ m)

/-- Whether one invocation succeeds: no exception, within the 10-second
bound, exit code zero. -/
def execSuccess (b : ProcBehavior) : Bool :=
  match b.exn with
  | some _ => false
  | none => if 10 < b.duration then false else b.exitCode == 0

/-- Embeds `load_blocklist` (src/ip_blocking.py:88-93): parsed content on success,
`[]` on `FileNotFoundError` or `json.JSONDecodeError`. -/
def load_blocklist (f : StoreFile) : List LogEntry :=
  match f with
  | .missing => []
  | .corrupt _ => []
  | .ok events => events

/-- Embeds `save_blocklist` (src/ip_blocking.py:95-97): overwrites the store file
with the serialized list. -/
def save_blocklist (data : List LogEntry) : StoreFile :=
  .ok data

/-- Embeds `log_action` (src/ip_blocking.py:71-86): appends the entry to
`logs/actions.log`, then reads the blocklist, appends the entry, and writes
the blocklist back. -/
def log_action (ip : String) (action : String) (now : Nat) (s : SysState) : SysState :=
  let log_entry : LogEntry := ⟨now, ip, action⟩
  let s := { s with actionsLog := s.actionsLog ++ [log_entry] }
  let blocklist := load_blocklist s.blocklist
  let blocklist := blocklist ++ [log_entry]
  { s with blocklist := save_blocklist blocklist }

/-- Embeds `block_ip` (src/ip_blocking.py:53-60): adds the inbound and outbound
DROP rules; records a `"blocked"` event if either direction succeeded;
returns true iff both did. -/
def block_ip (ip : String) (bIn bOut : ProcBehavior) (now : Nat) (s : SysState) :
    Bool × SysState :=
  let success_in := (execute_firewall_command [FIREWALL_CMD, "-A", "INPUT", "-s", ip, "-j", "DROP"] bIn).1
  let success_out := (execute_firewall_command [FIREWALL_CMD, "-A", "OUTPUT", "-d", ip, "-j", "DROP"] bOut).1
  let s := if success_in || success_out then log_action ip "blocked" now s else s
  (success_in && success_out, s)

/-- Embeds `unblock_ip` (src/ip_blocking.py:62-69): deletes both DROP rules;
records an `"unblocked"` event if either direction succeeded; returns true
iff both did. -/
def unblock_ip (ip : String) (bIn bOut : ProcBehavior) (now : Nat) (s : SysState) :
    Bool × SysState :=
  let success_in := (execute_firewall_command [FIREWALL_CMD, "-D", "INPUT", "-s", ip, "-j", "DROP"] bIn).1
  let success_out := (execute_firewall_command [FIREWALL_CMD, "-D", "OUTPUT", "-d", ip, "-j", "DROP"] bOut).1
  let s := if success_in || success_out then log_action ip "unblocked" now s else s
  (success_in && success_out, s)

/-- The "currently blocked" view (src/ip_blocking.py:155: the rows of the
loaded blocklist whose action equals blocked). -/
def active_blocks (s : SysState) : List LogEntry :=
  (load_blocklist s.blocklist).filter (fun e => e.action == "blocked")

/-- One hour in seconds: the fixed TTL. -/
def TTL_SECONDS : Nat := 3600

/-- The firewall environment seen by one sweep: for each address, the
behaviour of the two per-direction `iptables -D` invocations that
`unblock_ip` would issue for it. -/
def SweepEnv : Type := String → ProcBehavior × ProcBehavior

/-- The loop body of `AutoUnblocker.check_expired_blocks`
(src/ip_blocking.py:119-133): walks the loaded entries building
`updated_list`, calling `unblock_ip` (which mutates the state) for each
expired `"blocked"` entry and dropping it exactly when that call returned
true. Returns the final `updated_list` and the state after all the
`unblock_ip` calls. -/
def sweepEntries (env : SweepEnv) (now : Nat) :
    List LogEntry → SysState → List LogEntry × SysState
  | [], s => ([], s)
  | entry :: rest, s =>
    if entry.action ≠ "blocked" then
      let r := sweepEntries env now rest s
      (entry :: r.1, r.2)
    else if entry.time + TTL_SECONDS < now then
      let u := unblock_ip entry.ip (env entry.ip).1 (env entry.ip).2 now s
      let r := sweepEntries env now rest u.2
      if u.1 then r else (entry :: r.1, r.2)
    else
      let r := sweepEntries env now rest s
      (entry :: r.1, r.2)

/-- Embeds `AutoUnblocker.check_expired_blocks` (src/ip_blocking.py:114-135):
loads the blocklist, runs the loop, then saves `updated_list` over
whatever the `unblock_ip` calls of the loop left in the store file. -/
def check_expired_blocks (env : SweepEnv) (now : Nat) (s : SysState) : SysState :=
  let blocklist := load_blocklist s.blocklist
  let r := sweepEntries env now blocklist s
  { r.2 with blocklist := save_blocklist r.1 }

/-- The pure survivor computation of one sweep: which loaded entries end up
in `updated_list`, as a function of the environment alone. -/
def keptEntries (env : SweepEnv) (now : Nat) : List LogEntry → List LogEntry
  | [] => []
  | entry :: rest =>
    if entry.action ≠ "blocked" then
      entry :: keptEntries env now rest
    else if entry.time + TTL_SECONDS < now then
      if execSuccess (env entry.ip).1 && execSuccess (env entry.ip).2 then
        keptEntries env now rest
      else
        entry :: keptEntries env now rest
    else
      entry :: keptEntries env now rest

/-! ### Basic lemmas about the embedding -/

theorem exec_fst (cmd : List String) (b : ProcBehavior) :
    (execute_firewall_command cmd b).1 = execSuccess b := by
  rcases b with ⟨d, ec, se, exn⟩
  cases exn with
  | none =>
    by_cases hd : 10 < d
    · simp [execute_firewall_command, subprocessRun, execSuccess, hd]
    · cases ec with
      | zero => simp [execute_firewall_command, subprocessRun, execSuccess, hd]
      | succ n => simp [execute_firewall_command, subprocessRun, execSuccess, hd]
  | some m => rfl

theorem load_save (l : List LogEntry) : load_blocklist (save_blocklist l) = l := rfl

theorem log_action_blocklist (ip action : String) (now : Nat) (s : SysState) :
    (log_action ip action now s).blocklist =
      save_blocklist (load_blocklist s.blocklist ++ [⟨now, ip, action⟩]) := rfl

theorem log_action_actionsLog (ip action : String) (now : Nat) (s : SysState) :
    (log_action ip action now s).actionsLog = s.actionsLog ++ [⟨now, ip, action⟩] := rfl

/-! ### C1: Block appends on partial success, returns true only on full success -/

/-- C1: for every address and every pair of per-direction outcomes,
`block_ip` appends exactly one `"blocked"` event to the store when at least
one direction succeeds, returns true exactly when both succeed, and leaves
the state untouched when both fail. -/
theorem block_ip_partial_success_semantics (ip : String) (bIn bOut : ProcBehavior)
    (now : Nat) (s : SysState) :
    (block_ip ip bIn bOut now s).1 = (execSuccess bIn && execSuccess bOut)
    ∧ ((execSuccess bIn || execSuccess bOut) = true →
        load_blocklist ((block_ip ip bIn bOut now s).2).blocklist =
          load_blocklist s.blocklist ++ [⟨now, ip, "blocked"⟩])
    ∧ ((execSuccess bIn || execSuccess bOut) = false →
        (block_ip ip bIn bOut now s).2 = s) := by
  unfold block_ip
  simp only [exec_fst]
  cases h : (execSuccess bIn || execSuccess bOut) <;>
    simp_all [log_action_blocklist, load_save]

/-- C1 witness: inbound succeeds, outbound fails: the event is appended to
an initially empty store yet the call returns false. -/
theorem block_ip_partial_success_semantics_witness :
    ((execSuccess ⟨1, 0, "", none⟩ || execSuccess ⟨1, 1, "err", none⟩) = true)
    ∧ load_blocklist ((block_ip "203.0.113.9" ⟨1, 0, "", none⟩ ⟨1, 1, "err", none⟩ 5
        ⟨.ok [], []⟩).2).blocklist = [⟨5, "203.0.113.9", "blocked"⟩]
    ∧ (block_ip "203.0.113.9" ⟨1, 0, "", none⟩ ⟨1, 1, "err", none⟩ 5 ⟨.ok [], []⟩).1 = false := by
  have h := block_ip_partial_success_semantics "203.0.113.9" ⟨1, 0, "", none⟩
    ⟨1, 1, "err", none⟩ 5 ⟨.ok [], []⟩
  refine ⟨by decide, ?_, ?_⟩
  · rw [h.2.1 (by decide)]; rfl
  · rw [h.1]; decide

/-! ### C5: Block with both directions failing is a no-op returning false -/

/-- C5: when both enforcement directions fail (e.g. on timeout), `block_ip`
appends nothing — the whole state, in particular the store content, is
unchanged — and returns false. -/
theorem block_ip_noop_when_both_fail (ip : String) (bIn bOut : ProcBehavior)
    (now : Nat) (s : SysState)
    (hIn : execSuccess bIn = false) (hOut : execSuccess bOut = false) :
    block_ip ip bIn bOut now s = (false, s)
    ∧ load_blocklist ((block_ip ip bIn bOut now s).2).blocklist =
        load_blocklist s.blocklist := by
  unfold block_ip
  simp [exec_fst, hIn, hOut]

/-- C5 witness: both directions exceed the 10-second bound (duration 11);
the call returns false and the state is untouched. -/
theorem block_ip_noop_when_both_fail_witness :
    block_ip "203.0.113.9" ⟨11, 0, "", none⟩ ⟨11, 0, "", none⟩ 5
        ⟨.ok [⟨1, "198.51.100.7", "blocked"⟩], []⟩ =
      (false, ⟨.ok [⟨1, "198.51.100.7", "blocked"⟩], []⟩) :=
  (block_ip_noop_when_both_fail "203.0.113.9" ⟨11, 0, "", none⟩ ⟨11, 0, "", none⟩ 5
    ⟨.ok [⟨1, "198.51.100.7", "blocked"⟩], []⟩ (by decide) (by decide)).1

/-! ### C4: Load tolerates missing/corrupt store; Block rebuilds it -/

/-- C4: when the backing file is missing or not valid JSON, `load_blocklist`
returns the empty list, and a subsequent `block_ip` with at least one
direction succeeding proceeds normally and leaves a fresh store holding
exactly its event. -/
theorem load_empty_then_block_rebuilds (f : StoreFile)
    (hf : f = .missing ∨ ∃ raw, f = .corrupt raw)
    (ip : String) (bIn bOut : ProcBehavior) (now : Nat) (log : List LogEntry)
    (hb : (execSuccess bIn || execSuccess bOut) = true) :
    load_blocklist f = []
    ∧ ((block_ip ip bIn bOut now ⟨f, log⟩).2).blocklist =
        save_blocklist [⟨now, ip, "blocked"⟩]
    ∧ (block_ip ip bIn bOut now ⟨f, log⟩).1 = (execSuccess bIn && execSuccess bOut) := by
  have hload : load_blocklist f = [] := by
    rcases hf with h | ⟨raw, h⟩ <;> subst h <;> rfl
  refine ⟨hload, ?_, (block_ip_partial_success_semantics ip bIn bOut now ⟨f, log⟩).1⟩
  unfold block_ip
  simp only [exec_fst, hb]
  simp [log_action_blocklist, hload]

/-- C4 witness: missing store file, both directions succeed: load yields
`[]`, the rebuilt store holds exactly the new event, and the call returns
true. -/
theorem load_empty_then_block_rebuilds_witness :
    load_blocklist .missing = []
    ∧ ((block_ip "198.51.100.7" ⟨1, 0, "", none⟩ ⟨1, 0, "", none⟩ 7
        ⟨.missing, []⟩).2).blocklist = save_blocklist [⟨7, "198.51.100.7", "blocked"⟩]
    ∧ (block_ip "198.51.100.7" ⟨1, 0, "", none⟩ ⟨1, 0, "", none⟩ 7 ⟨.missing, []⟩).1 =
        (execSuccess ⟨1, 0, "", none⟩ && execSuccess ⟨1, 0, "", none⟩) :=
  load_empty_then_block_rebuilds .missing (Or.inl rfl) "198.51.100.7"
    ⟨1, 0, "", none⟩ ⟨1, 0, "", none⟩ 7 [] (by decide)

/-! ### C8: Rewrite after Load is a no-op on the stored event sequence -/

/-- C8: writing back the sequence obtained by loading the store leaves the
stored event sequence unchanged; when the file already holds a parsed list
the file itself is reproduced exactly. -/
theorem rewrite_load_roundtrip (f : StoreFile) :
    load_blocklist (save_blocklist (load_blocklist f)) = load_blocklist f
    ∧ (∀ l : List LogEntry, f = .ok l → save_blocklist (load_blocklist f) = f) := by
  refine ⟨load_save _, ?_⟩
  rintro l rfl
  rfl

/-- C8 witness: round trip on a concrete one-event store. -/
theorem rewrite_load_roundtrip_witness :
    load_blocklist (save_blocklist (load_blocklist (.ok [⟨1, "198.51.100.7", "blocked"⟩]))) =
      load_blocklist (.ok [⟨1, "198.51.100.7", "blocked"⟩])
    ∧ save_blocklist (load_blocklist (.ok [⟨1, "198.51.100.7", "blocked"⟩])) =
        .ok [⟨1, "198.51.100.7", "blocked"⟩] :=
  ⟨(rewrite_load_roundtrip _).1,
   (rewrite_load_roundtrip (.ok [⟨1, "198.51.100.7", "blocked"⟩])).2 _ rfl⟩

/-! ### C9: timeout bound and its distinct error -/

theorem string_head_ne_aux (a b : String) (c₁ c₂ : Char)
    (ha : a.data.head? = some c₁) (hb : b.data.head? = some c₂) (hc : c₁ ≠ c₂) :
    a ≠ b := by
  intro h
  rw [h, hb] at ha
  injection ha with h2
  exact hc h2.symm

theorem unexpected_ne_command_failed (m j st : String) :
    ("Unexpected error: " ++ m) ≠ ("Command failed (" ++ j ++ "): " ++ st) := by
  refine string_head_ne_aux _ _ 'U' 'C' ?_ ?_ (by decide)
  · rfl
  · rfl

/-- C9: with `timeout=10`, an invocation whose process runs longer than 10
seconds fails, carrying the `TimeoutExpired` message through the generic
exception handler; that result message is distinct from the message of every
command failure (non-zero exit within the bound). -/
theorem execute_timeout_bound_distinct_error (cmd : List String) (b : ProcBehavior)
    (hexn : b.exn = none) (hdur : 10 < b.duration) :
    execute_firewall_command cmd b =
      (false, "Unexpected error: " ++ timeoutStr ("sudo" :: cmd) 10)
    ∧ ∀ b' : ProcBehavior, b'.exn = none → b'.duration ≤ 10 → b'.exitCode ≠ 0 →
        (execute_firewall_command cmd b').1 = false ∧
        (execute_firewall_command cmd b').2 ≠ (execute_firewall_command cmd b).2 := by
  have hb : execute_firewall_command cmd b =
      (false, "Unexpected error: " ++ timeoutStr ("sudo" :: cmd) 10) := by
    rcases b with ⟨d, ec, se, exn⟩
    cases hexn
    simp [execute_firewall_command, subprocessRun, hdur]
  refine ⟨hb, ?_⟩
  rintro ⟨d', ec', se', exn'⟩ hexn' hdur' hec'
  cases hexn'
  obtain ⟨n, rfl⟩ := Nat.exists_eq_succ_of_ne_zero hec'
  have hb' : execute_firewall_command cmd ⟨d', n + 1, se', none⟩ =
      (false, "Command failed (" ++ joinSpace cmd ++ "): " ++ se') := by
    simp [execute_firewall_command, subprocessRun, Nat.not_lt.2 hdur']
  rw [hb, hb']
  exact ⟨rfl, fun h => unexpected_ne_command_failed _ _ _ h.symm⟩

/-- C9 witness: a 11-second invocation of a one-word command times out with
the timeout message, and its result message differs from that of a
command that fails with exit code 1 inside the bound. -/
theorem execute_timeout_bound_distinct_error_witness :
    execute_firewall_command ["x"] ⟨11, 0, "", none⟩ =
      (false, "Unexpected error: " ++ timeoutStr ["sudo", "x"] 10)
    ∧ (execute_firewall_command ["x"] ⟨1, 1, "err", none⟩).1 = false
    ∧ (execute_firewall_command ["x"] ⟨1, 1, "err", none⟩).2 ≠
        (execute_firewall_command ["x"] ⟨11, 0, "", none⟩).2 := by
  have h := execute_timeout_bound_distinct_error ["x"] ⟨11, 0, "", none⟩ rfl (by decide)
  have h2 := h.2 ⟨1, 1, "err", none⟩ rfl (by decide) (by decide)
  exact ⟨h.1, h2.1, h2.2⟩

/-! ### Sweep machinery lemmas -/

theorem unblock_ip_fst (ip : String) (bIn bOut : ProcBehavior) (now : Nat) (s : SysState) :
    (unblock_ip ip bIn bOut now s).1 = (execSuccess bIn && execSuccess bOut) := by
  unfold unblock_ip
  simp [exec_fst]

theorem unblock_ip_snd_recorded (ip : String) (bIn bOut : ProcBehavior) (now : Nat)
    (s : SysState) (h : (execSuccess bIn || execSuccess bOut) = true) :
    (unblock_ip ip bIn bOut now s).2 = log_action ip "unblocked" now s := by
  unfold unblock_ip
  simp [exec_fst, h]

theorem unblock_ip_snd_skipped (ip : String) (bIn bOut : ProcBehavior) (now : Nat)
    (s : SysState) (h : (execSuccess bIn || execSuccess bOut) = false) :
    (unblock_ip ip bIn bOut now s).2 = s := by
  unfold unblock_ip
  simp only [exec_fst]
  rw [Bool.or_eq_false_iff] at h
  simp [h.1, h.2]

/-- The `updated_list` a sweep builds is the pure survivor computation. -/
theorem sweepEntries_fst (env : SweepEnv) (now : Nat) (l : List LogEntry) (s : SysState) :
    (sweepEntries env now l s).1 = keptEntries env now l := by
  induction l generalizing s with
  | nil => rfl
  | cons e rest ih =>
    by_cases h1 : e.action = "blocked"
    · by_cases h2 : e.time + TTL_SECONDS < now
      · by_cases h3 : (execSuccess (env e.ip).1 && execSuccess (env e.ip).2) = true
        · simp [sweepEntries, keptEntries, h1, h2, h3, unblock_ip_fst, ih]
        · simp only [Bool.not_eq_true] at h3
          simp [sweepEntries, keptEntries, h1, h2, h3, unblock_ip_fst, ih]
      · simp [sweepEntries, keptEntries, h1, h2, ih]
    · simp [sweepEntries, keptEntries, h1, ih]

/-- The store file a sweep leaves behind: exactly the survivors. -/
theorem check_expired_blocks_blocklist (env : SweepEnv) (now : Nat) (s : SysState) :
    (check_expired_blocks env now s).blocklist =
      save_blocklist (keptEntries env now (load_blocklist s.blocklist)) := by
  unfold check_expired_blocks
  simp [sweepEntries_fst]

/-- Survivors form a sublist of the loaded snapshot. -/
theorem keptEntries_sublist (env : SweepEnv) (now : Nat) (l : List LogEntry) :
    (keptEntries env now l).Sublist l := by
  induction l with
  | nil => simp [keptEntries]
  | cons e rest ih =>
    by_cases h1 : e.action = "blocked"
    · by_cases h2 : e.time + TTL_SECONDS < now
      · by_cases h3 : (execSuccess (env e.ip).1 && execSuccess (env e.ip).2) = true
        · simp only [keptEntries, h1, h2, h3, ne_eq, not_true_eq_false, ite_false,
            ite_true, if_true, if_false]
          exact ih.cons e
        · simp only [Bool.not_eq_true] at h3
          simp only [keptEntries, h1, h2, h3, ne_eq, not_true_eq_false, ite_false,
            ite_true, if_true, if_false, Bool.false_eq_true]
          exact ih.cons₂ e
      · simp only [keptEntries, h1, h2, ne_eq, not_true_eq_false, ite_false, if_false]
        exact ih.cons₂ e
    · simp only [keptEntries, h1, ne_eq, not_false_eq_true, ite_true, if_true]
      exact ih.cons₂ e

/-- Unfolding lemma: `keptEntries` drops a due `"blocked"` head whose reversal succeeds. -/
theorem keptEntries_cons_drop (env : SweepEnv) (now : Nat) (hd : LogEntry)
    (rest : List LogEntry) (h1 : hd.action = "blocked")
    (h2 : hd.time + TTL_SECONDS < now)
    (h3 : (execSuccess (env hd.ip).1 && execSuccess (env hd.ip).2) = true) :
    keptEntries env now (hd :: rest) = keptEntries env now rest := by
  simp [keptEntries, h1, h2, h3]

/-- Unfolding lemma: `keptEntries` keeps any head that is not a due successfully-reversed
`"blocked"` entry. -/
theorem keptEntries_cons_keep (env : SweepEnv) (now : Nat) (hd : LogEntry)
    (rest : List LogEntry)
    (h : hd.action ≠ "blocked" ∨ ¬ hd.time + TTL_SECONDS < now ∨
      (execSuccess (env hd.ip).1 && execSuccess (env hd.ip).2) = false) :
    keptEntries env now (hd :: rest) = hd :: keptEntries env now rest := by
  rcases h with h | h | h
  · simp [keptEntries, h]
  · by_cases h1 : hd.action = "blocked" <;> simp [keptEntries, h1, h]
  · by_cases h1 : hd.action = "blocked"
    · by_cases h2 : hd.time + TTL_SECONDS < now <;> simp [keptEntries, h1, h2, h]
    · simp [keptEntries, h1]

/-- A due `"blocked"` entry whose reversal succeeds survives nowhere. -/
theorem keptEntries_not_mem_of_due_success (env : SweepEnv) (now : Nat)
    (e : LogEntry) (hact : e.action = "blocked")
    (hdue : e.time + TTL_SECONDS < now)
    (hrev : (execSuccess (env e.ip).1 && execSuccess (env e.ip).2) = true)
    (l : List LogEntry) :
    e ∉ keptEntries env now l := by
  induction l with
  | nil => simp [keptEntries]
  | cons hd rest ih =>
    by_cases h1 : hd.action = "blocked"
    · by_cases h2 : hd.time + TTL_SECONDS < now
      · by_cases h3 : (execSuccess (env hd.ip).1 && execSuccess (env hd.ip).2) = true
        · rw [keptEntries_cons_drop env now hd rest h1 h2 h3]
          exact ih
        · rw [keptEntries_cons_keep env now hd rest
            (Or.inr (Or.inr (by simpa using h3)))]
          intro hmem
          rcases List.mem_cons.1 hmem with h | h
          · subst h
            exact h3 hrev
          · exact ih h
      · rw [keptEntries_cons_keep env now hd rest (Or.inr (Or.inl h2))]
        intro hmem
        rcases List.mem_cons.1 hmem with h | h
        · subst h
          exact h2 hdue
        · exact ih h
    · rw [keptEntries_cons_keep env now hd rest (Or.inl h1)]
      intro hmem
      rcases List.mem_cons.1 hmem with h | h
      · subst h
        exact h1 hact
      · exact ih h

/-- A due `"blocked"` entry whose reversal fails is kept with unchanged
multiplicity. -/
theorem keptEntries_count_of_due_failure (env : SweepEnv) (now : Nat)
    (e : LogEntry) (hact : e.action = "blocked")
    (hdue : e.time + TTL_SECONDS < now)
    (hrev : (execSuccess (env e.ip).1 && execSuccess (env e.ip).2) = false)
    (l : List LogEntry) :
    (keptEntries env now l).count e = l.count e := by
  induction l with
  | nil => simp [keptEntries]
  | cons hd rest ih =>
    by_cases heq : hd = e
    · subst heq
      rw [keptEntries_cons_keep env now hd rest (Or.inr (Or.inr hrev))]
      simp [List.count_cons, ih]
    · by_cases h1 : hd.action = "blocked"
      · by_cases h2 : hd.time + TTL_SECONDS < now
        · by_cases h3 : (execSuccess (env hd.ip).1 && execSuccess (env hd.ip).2) = true
          · rw [keptEntries_cons_drop env now hd rest h1 h2 h3, ih]
            simp [List.count_cons, Ne.symm heq]
          · rw [keptEntries_cons_keep env now hd rest
              (Or.inr (Or.inr (by simpa using h3)))]
            simp [List.count_cons, Ne.symm heq, ih]
        · rw [keptEntries_cons_keep env now hd rest (Or.inr (Or.inl h2))]
          simp [List.count_cons, Ne.symm heq, ih]
      · rw [keptEntries_cons_keep env now hd rest (Or.inl h1)]
        simp [List.count_cons, Ne.symm heq, ih]

theorem block_ip_snd_recorded (ip : String) (bIn bOut : ProcBehavior) (now : Nat)
    (s : SysState) (h : (execSuccess bIn || execSuccess bOut) = true) :
    (block_ip ip bIn bOut now s).2 = log_action ip "blocked" now s := by
  unfold block_ip
  simp [exec_fst, h]

theorem load_log_action (ip action : String) (now : Nat) (s : SysState) :
    load_blocklist (log_action ip action now s).blocklist =
      load_blocklist s.blocklist ++ [⟨now, ip, action⟩] := by
  rw [log_action_blocklist, load_save]

/-! ### C2: expired blocks with successful reversal are pruned -/

/-- C2: a `"blocked"` event in the store whose TTL has elapsed at sweep
time (`now > timestamp + 3600`) and whose reversal succeeds is absent from
the store after the sweep. -/
theorem sweep_prunes_expired_on_success (env : SweepEnv) (now : Nat) (s : SysState)
    (e : LogEntry) (he : e ∈ load_blocklist s.blocklist)
    (hact : e.action = "blocked") (hdue : e.time + TTL_SECONDS < now)
    (hrev : (execSuccess (env e.ip).1 && execSuccess (env e.ip).2) = true) :
    e ∉ load_blocklist ((check_expired_blocks env now s).blocklist) := by
  rw [check_expired_blocks_blocklist, load_save]
  exact keptEntries_not_mem_of_due_success env now e hact hdue hrev _

/-- C2 witness: a block recorded at second 0 is pruned by a sweep at second
4000 whose reversal succeeds. -/
theorem sweep_prunes_expired_on_success_witness :
    (⟨0, "198.51.100.7", "blocked"⟩ : LogEntry) ∉
      load_blocklist ((check_expired_blocks
        (fun _ => (⟨1, 0, "", none⟩, ⟨1, 0, "", none⟩)) 4000
        ⟨.ok [⟨0, "198.51.100.7", "blocked"⟩], []⟩).blocklist) :=
  sweep_prunes_expired_on_success
    (fun _ => (⟨1, 0, "", none⟩, ⟨1, 0, "", none⟩)) 4000
    ⟨.ok [⟨0, "198.51.100.7", "blocked"⟩], []⟩
    ⟨0, "198.51.100.7", "blocked"⟩ (by decide) rfl (by decide) (by decide)

/-! ### C3: expired blocks with failed reversal are retained -/

/-- C3: a `"blocked"` event in the store whose TTL has elapsed at sweep
time but whose reversal fails is still in the store after the sweep, with
unchanged multiplicity, so the next tick reconsiders it. -/
theorem sweep_retains_expired_on_failure (env : SweepEnv) (now : Nat) (s : SysState)
    (e : LogEntry) (he : e ∈ load_blocklist s.blocklist)
    (hact : e.action = "blocked") (hdue : e.time + TTL_SECONDS < now)
    (hrev : (execSuccess (env e.ip).1 && execSuccess (env e.ip).2) = false) :
    e ∈ load_blocklist ((check_expired_blocks env now s).blocklist)
    ∧ (load_blocklist ((check_expired_blocks env now s).blocklist)).count e =
        (load_blocklist s.blocklist).count e := by
  rw [check_expired_blocks_blocklist, load_save]
  have hc := keptEntries_count_of_due_failure env now e hact hdue hrev
    (load_blocklist s.blocklist)
  refine ⟨?_, hc⟩
  rw [← List.count_pos_iff] at he ⊢
  rw [hc]
  exact he

/-- C3 witness: a due block at second 0 survives a sweep at second 4000
whose reversal fails (outbound deletion exits non-zero). -/
theorem sweep_retains_expired_on_failure_witness :
    (⟨0, "198.51.100.7", "blocked"⟩ : LogEntry) ∈
      load_blocklist ((check_expired_blocks
        (fun _ => (⟨1, 0, "", none⟩, ⟨1, 1, "iptables: Bad rule", none⟩)) 4000
        ⟨.ok [⟨0, "198.51.100.7", "blocked"⟩], []⟩).blocklist) :=
  (sweep_retains_expired_on_failure
    (fun _ => (⟨1, 0, "", none⟩, ⟨1, 1, "iptables: Bad rule", none⟩)) 4000
    ⟨.ok [⟨0, "198.51.100.7", "blocked"⟩], []⟩
    ⟨0, "198.51.100.7", "blocked"⟩ (by decide) rfl (by decide) (by decide)).1

/-! ### C7: sweeps keep non-blocked events unconditionally -/

/-- The survivor computation preserves the non-`"blocked"` subsequence
exactly. -/
theorem keptEntries_filter_non_blocked (env : SweepEnv) (now : Nat) (l : List LogEntry) :
    (keptEntries env now l).filter (fun e => !(e.action == "blocked")) =
      l.filter (fun e => !(e.action == "blocked")) := by
  induction l with
  | nil => simp [keptEntries]
  | cons hd rest ih =>
    by_cases h1 : hd.action = "blocked"
    · have hp : (!(hd.action == "blocked")) = false := by simp [h1]
      by_cases h2 : hd.time + TTL_SECONDS < now
      · by_cases h3 : (execSuccess (env hd.ip).1 && execSuccess (env hd.ip).2) = true
        · rw [keptEntries_cons_drop env now hd rest h1 h2 h3, ih, List.filter_cons, hp]
          simp
        · rw [keptEntries_cons_keep env now hd rest
            (Or.inr (Or.inr (by simpa using h3)))]
          rw [List.filter_cons, List.filter_cons, hp, ih]
      · rw [keptEntries_cons_keep env now hd rest (Or.inr (Or.inl h2))]
        rw [List.filter_cons, List.filter_cons, hp, ih]
    · have hp : (!(hd.action == "blocked")) = true := by simp [h1]
      rw [keptEntries_cons_keep env now hd rest (Or.inl h1)]
      rw [List.filter_cons, List.filter_cons, hp, ih]

/-- C7: a sweep keeps every event whose action is not `"blocked"`
unconditionally — the non-`"blocked"` subsequence of the store is unchanged
and every such event, e.g. every `"unblocked"` event, is still present. -/
theorem sweep_keeps_non_blocked (env : SweepEnv) (now : Nat) (s : SysState) :
    (load_blocklist ((check_expired_blocks env now s).blocklist)).filter
        (fun e => !(e.action == "blocked")) =
      (load_blocklist s.blocklist).filter (fun e => !(e.action == "blocked"))
    ∧ ∀ e : LogEntry, e ∈ load_blocklist s.blocklist → e.action ≠ "blocked" →
        e ∈ load_blocklist ((check_expired_blocks env now s).blocklist) := by
  rw [check_expired_blocks_blocklist, load_save]
  refine ⟨keptEntries_filter_non_blocked env now _, ?_⟩
  intro e hmem hne
  have h1 : e ∈ (load_blocklist s.blocklist).filter (fun e => !(e.action == "blocked")) :=
    List.mem_filter.2 ⟨hmem, by simp [hne]⟩
  rw [← keptEntries_filter_non_blocked env now] at h1
  exact (List.mem_filter.1 h1).1

/-- C7 witness: an `"unblocked"` event survives a sweep that prunes a due
`"blocked"` one. -/
theorem sweep_keeps_non_blocked_witness :
    (⟨10, "198.51.100.7", "unblocked"⟩ : LogEntry) ∈
      load_blocklist ((check_expired_blocks
        (fun _ => (⟨1, 0, "", none⟩, ⟨1, 0, "", none⟩)) 4000
        ⟨.ok [⟨0, "198.51.100.7", "blocked"⟩, ⟨10, "198.51.100.7", "unblocked"⟩],
          []⟩).blocklist) :=
  (sweep_keeps_non_blocked
    (fun _ => (⟨1, 0, "", none⟩, ⟨1, 0, "", none⟩)) 4000
    ⟨.ok [⟨0, "198.51.100.7", "blocked"⟩, ⟨10, "198.51.100.7", "unblocked"⟩], []⟩).2
    ⟨10, "198.51.100.7", "unblocked"⟩ (by decide) (by decide)

/-! ### C10: the final rewrite overwrites everything appended mid-sweep -/

/-- During the loop, the store file only accumulates the events the
`unblock_ip` calls append: all of them `"unblocked"` events stamped with
the clock of the sweep. -/
theorem sweepEntries_state_blocklist (env : SweepEnv) (now : Nat)
    (l : List LogEntry) (s : SysState) :
    ∃ tail : List LogEntry,
      load_blocklist ((sweepEntries env now l s).2).blocklist =
        load_blocklist s.blocklist ++ tail
      ∧ ∀ e ∈ tail, e.action = "unblocked" ∧ e.time = now := by
  induction l generalizing s with
  | nil => exact ⟨[], by simp [sweepEntries], by simp⟩
  | cons hd rest ih =>
    by_cases h1 : hd.action = "blocked"
    · by_cases h2 : hd.time + TTL_SECONDS < now
      · have hstep : (sweepEntries env now (hd :: rest) s).2 =
            (sweepEntries env now rest
              ((unblock_ip hd.ip (env hd.ip).1 (env hd.ip).2 now s).2)).2 := by
          simp only [sweepEntries, h1, h2, ne_eq, not_true_eq_false, ite_false, ite_true,
            if_false, if_true]
          cases hu : (unblock_ip hd.ip (env hd.ip).1 (env hd.ip).2 now s).1 <;> simp
        obtain ⟨tail1, htail1, hall1⟩ :=
          ih ((unblock_ip hd.ip (env hd.ip).1 (env hd.ip).2 now s).2)
        by_cases hu : (execSuccess (env hd.ip).1 || execSuccess (env hd.ip).2) = true
        · refine ⟨⟨now, hd.ip, "unblocked"⟩ :: tail1, ?_, ?_⟩
          · rw [hstep, htail1, unblock_ip_snd_recorded _ _ _ _ _ hu, load_log_action,
              List.append_assoc]
            rfl
          · intro e hmem
            rcases List.mem_cons.1 hmem with rfl | hmem
            · exact ⟨rfl, rfl⟩
            · exact hall1 e hmem
        · refine ⟨tail1, ?_, hall1⟩
          rw [hstep, htail1,
            unblock_ip_snd_skipped _ _ _ _ _ (by simpa using hu)]
      · have hstep : (sweepEntries env now (hd :: rest) s).2 =
            (sweepEntries env now rest s).2 := by
          simp [sweepEntries, h1, h2]
        rw [hstep]
        exact ih s
    · have hstep : (sweepEntries env now (hd :: rest) s).2 =
          (sweepEntries env now rest s).2 := by
        simp [sweepEntries, h1]
      rw [hstep]
      exact ih s

/-- C10: after a sweep the store holds exactly the pure survivor subset of
the snapshot loaded at its start (a sublist of that snapshot); mid-sweep the
store accumulated the `"unblocked"` events appended by the reversals of
the sweep itself, but the final rewrite overwrites them: nothing outside the
snapshot remains afterwards. -/
theorem sweep_store_is_survivors_of_snapshot (env : SweepEnv) (now : Nat) (s : SysState) :
    (check_expired_blocks env now s).blocklist =
      save_blocklist (keptEntries env now (load_blocklist s.blocklist))
    ∧ (keptEntries env now (load_blocklist s.blocklist)).Sublist
        (load_blocklist s.blocklist)
    ∧ (∃ tail : List LogEntry,
        load_blocklist
            ((sweepEntries env now (load_blocklist s.blocklist) s).2).blocklist =
          load_blocklist s.blocklist ++ tail
        ∧ ∀ e ∈ tail, e.action = "unblocked" ∧ e.time = now)
    ∧ ∀ e : LogEntry, e ∉ load_blocklist s.blocklist →
        e ∉ load_blocklist ((check_expired_blocks env now s).blocklist) := by
  refine ⟨check_expired_blocks_blocklist env now s, keptEntries_sublist env now _,
    sweepEntries_state_blocklist env now _ s, ?_⟩
  intro e he hmem
  rw [check_expired_blocks_blocklist, load_save] at hmem
  exact he ((keptEntries_sublist env now _).subset hmem)

/-- C10 witness: sweeping a store holding one due block with a successful
reversal leaves the empty survivor list; the `"unblocked"` event the
reversal appended mid-sweep is gone from the final store. -/
theorem sweep_store_is_survivors_of_snapshot_witness :
    (check_expired_blocks (fun _ => (⟨1, 0, "", none⟩, ⟨1, 0, "", none⟩)) 4000
        ⟨.ok [⟨0, "198.51.100.7", "blocked"⟩], []⟩).blocklist =
      save_blocklist []
    ∧ load_blocklist
          ((sweepEntries (fun _ => (⟨1, 0, "", none⟩, ⟨1, 0, "", none⟩)) 4000
            [⟨0, "198.51.100.7", "blocked"⟩]
            ⟨.ok [⟨0, "198.51.100.7", "blocked"⟩], []⟩).2).blocklist =
        [⟨0, "198.51.100.7", "blocked"⟩, ⟨4000, "198.51.100.7", "unblocked"⟩]
    ∧ (⟨4000, "198.51.100.7", "unblocked"⟩ : LogEntry) ∉
        load_blocklist ((check_expired_blocks
          (fun _ => (⟨1, 0, "", none⟩, ⟨1, 0, "", none⟩)) 4000
          ⟨.ok [⟨0, "198.51.100.7", "blocked"⟩], []⟩).blocklist) := by
  have h := sweep_store_is_survivors_of_snapshot
    (fun _ => (⟨1, 0, "", none⟩, ⟨1, 0, "", none⟩)) 4000
    ⟨.ok [⟨0, "198.51.100.7", "blocked"⟩], []⟩
  refine ⟨by rw [h.1]; rfl, by decide, h.2.2.2 _ (by decide)⟩

/-! ### C6: a manual unblock does not remove the earlier blocked event -/

/-- C6: after `block_ip` records a `"blocked"` event and a manual
`unblock_ip` records an `"unblocked"` one, both events are in the log, the
original `"blocked"` event still shows in the active-blocks view, and only a
later sweep whose reversal succeeds after the TTL removes it. -/
theorem manual_unblock_keeps_blocked_event (ip : String)
    (bIn bOut cIn cOut : ProcBehavior) (t0 t1 : Nat) (s : SysState)
    (hb : (execSuccess bIn || execSuccess bOut) = true)
    (hu : (execSuccess cIn || execSuccess cOut) = true) :
    load_blocklist
        ((unblock_ip ip cIn cOut t1 ((block_ip ip bIn bOut t0 s).2)).2).blocklist =
      load_blocklist s.blocklist ++ [⟨t0, ip, "blocked"⟩, ⟨t1, ip, "unblocked"⟩]
    ∧ (⟨t0, ip, "blocked"⟩ : LogEntry) ∈
        active_blocks ((unblock_ip ip cIn cOut t1 ((block_ip ip bIn bOut t0 s).2)).2)
    ∧ ∀ (env : SweepEnv) (t2 : Nat), t0 + TTL_SECONDS < t2 →
        (execSuccess (env ip).1 && execSuccess (env ip).2) = true →
        (⟨t0, ip, "blocked"⟩ : LogEntry) ∉
          load_blocklist ((check_expired_blocks env t2
            ((unblock_ip ip cIn cOut t1 ((block_ip ip bIn bOut t0 s).2)).2)).blocklist) := by
  have hload : load_blocklist
      ((unblock_ip ip cIn cOut t1 ((block_ip ip bIn bOut t0 s).2)).2).blocklist =
      load_blocklist s.blocklist ++ [⟨t0, ip, "blocked"⟩, ⟨t1, ip, "unblocked"⟩] := by
    rw [block_ip_snd_recorded ip bIn bOut t0 s hb,
      unblock_ip_snd_recorded ip cIn cOut t1 _ hu, load_log_action, load_log_action,
      List.append_assoc]
    rfl
  refine ⟨hload, ?_, ?_⟩
  · unfold active_blocks
    rw [hload]
    refine List.mem_filter.2 ⟨?_, by simp⟩
    exact List.mem_append.2 (Or.inr (by simp))
  · intro env t2 ht2 hrev
    rw [check_expired_blocks_blocklist, load_save]
    exact keptEntries_not_mem_of_due_success env t2 ⟨t0, ip, "blocked"⟩ rfl ht2 hrev _

/-- C6 witness: block at second 0, manually unblock at second 300; both
events are persisted, the block is still listed active, and the sweep at
second 3700 with a successful reversal finally prunes it. -/
theorem manual_unblock_keeps_blocked_event_witness :
    load_blocklist
        ((unblock_ip "198.51.100.7" ⟨1, 0, "", none⟩ ⟨1, 0, "", none⟩ 300
          ((block_ip "198.51.100.7" ⟨1, 0, "", none⟩ ⟨1, 0, "", none⟩ 0
            ⟨.ok [], []⟩).2)).2).blocklist =
      [⟨0, "198.51.100.7", "blocked"⟩, ⟨300, "198.51.100.7", "unblocked"⟩]
    ∧ (⟨0, "198.51.100.7", "blocked"⟩ : LogEntry) ∈
        active_blocks ((unblock_ip "198.51.100.7" ⟨1, 0, "", none⟩ ⟨1, 0, "", none⟩ 300
          ((block_ip "198.51.100.7" ⟨1, 0, "", none⟩ ⟨1, 0, "", none⟩ 0
            ⟨.ok [], []⟩).2)).2)
    ∧ (⟨0, "198.51.100.7", "blocked"⟩ : LogEntry) ∉
        load_blocklist ((check_expired_blocks
          (fun _ => (⟨1, 0, "", none⟩, ⟨1, 0, "", none⟩)) 3700
          ((unblock_ip "198.51.100.7" ⟨1, 0, "", none⟩ ⟨1, 0, "", none⟩ 300
            ((block_ip "198.51.100.7" ⟨1, 0, "", none⟩ ⟨1, 0, "", none⟩ 0
              ⟨.ok [], []⟩).2)).2)).blocklist) := by
  have h := manual_unblock_keeps_blocked_event "198.51.100.7"
    ⟨1, 0, "", none⟩ ⟨1, 0, "", none⟩ ⟨1, 0, "", none⟩ ⟨1, 0, "", none⟩ 0 300
    ⟨.ok [], []⟩ (by decide) (by decide)
  exact ⟨h.1, h.2.1,
    h.2.2 (fun _ => (⟨1, 0, "", none⟩, ⟨1, 0, "", none⟩)) 3700 (by decide) (by decide)⟩
